import Mathlib

/-!
Shallow embedding of `src/atqdm/__init__.py` (the `APBar` throttled progress
iterator and the `tqdm` dispatch function).

Modelling conventions:
* Wall-clock timestamps and time deltas are exact rationals (`Rat`), in
  seconds.  `datetime.now()` reads are passed in explicitly as parameters,
  since they are an external input to the pure logic.
* Python's `float` arithmetic in progress/estimate computations is modelled
  with exact rational arithmetic; `int(...)` truncation of a non-negative
  quantity is floor, which for `int(100 * step / len)` coincides with `Nat`
  division.
* The wrapped iterator is a `List α`; `next(self.iter)` pops its head.
* `print(...)` side effects are modelled as an explicit list of output
  events (`Out`) returned by each call.
* Raising `StopIteration` is the `StepResult.stop` result.
-/

/-- Right-align a string in a field of width `w` with spaces,
Python `f"{s: >w}"` (unchanged when already at least `w` long). -/
def padL (s : String) (w : Nat) : String :=
  String.mk (List.replicate (w - s.length) ' ') ++ s

/-- Left-align a string in a field of width `w` with spaces,
Python `f"{s: <w}"` (unchanged when already at least `w` long). -/
def padR (s : String) (w : Nat) : String :=
  s ++ String.mk (List.replicate (w - s.length) ' ')

/-- Python `f"{n:02d}"` for a natural number. -/
def pad2 (n : Nat) : String :=
  if n < 10 then "0" ++ toString n else toString n

/-- Python `str(timedelta(seconds=t)).split(".")[0]`: the whole-second
rendering of a timedelta.  `timedelta` normalises so that the
sub-day remainder is in `[0, 86400)` (days may be negative); the string is
an optional `"D day(s), "` part followed by `H:MM:SS` with unpadded hours. -/
def fmtTD (t : Rat) : String :=
  let n : Int := Rat.floor t
  let days : Int := Int.ediv n 86400
  let rem : Nat := (Int.emod n 86400).toNat
  let h := rem / 3600
  let m := rem % 3600 / 60
  let sec := rem % 60
  let dayPart :=
    if days = 0 then ""
    else toString days ++ (if days = 1 ∨ days = -1 then " day, " else " days, ")
  dayPart ++ toString h ++ ":" ++ pad2 m ++ ":" ++ pad2 sec

/-- The estimate field of `APBar.pp`:
`es = "00:00:00" if estimate.total_seconds() < 0 else str(estimate).split(".")[0]`. -/
def esString (estimate : Rat) : String :=
  if estimate < 0 then "00:00:00" else fmtTD estimate

/-- The `time_string` computed in `APBar.pp`: empty when either argument is
`None`, otherwise `f"{ts: >8}" + chr(0x25BA) + f"{es: >8}"`. -/
def ppTimeString : Option Rat → Option Rat → String
  | some ts, some est =>
      padL (fmtTD ts) 8 ++ String.singleton (Char.ofNat 0x25BA) ++ padL (esString est) 8
  | _, _ => ""

/-- Python `f"{percentage:02d}%"` (percentage is non-negative at every
call site: either the literal 0 or `int(100*step/len)`). -/
def pctString (p : Nat) : String :=
  (if p < 10 then "0" ++ toString p else toString p) ++ "%"

/-- A Python value passed to ` set_postfix`: a `numbers.Number`, a `str`,
or any other object (carried as its `str(...)` rendering). -/
inductive PVal where
  | num (q : Rat)
  | str (s : String)
  | other (s : String)
deriving DecidableEq

/-- `d[k] = v` on an insertion-ordered dict represented as an association
list: update in place when the key is present, else append. -/
def odInsert (l : List (String × PVal)) (k : String) (v : PVal) :
    List (String × PVal) :=
  if l.any (fun kv => kv.1 == k) then
    l.map (fun kv => if kv.1 = k then (k, v) else kv)
  else l ++ [(k, v)]

/-- Insertion step of an ascending insertion sort on keys. -/
def sortKeysInsert (kv : String × PVal) :
    List (String × PVal) → List (String × PVal)
  | [] => [kv]
  | x :: xs => if kv.1 ≤ x.1 then kv :: x :: xs else x :: sortKeysInsert kv xs

/-- Python `sorted(kwargs.keys())` traversal order: ascending by key
(kwargs keys are unique, so stability is irrelevant). -/
def sortByKey (l : List (String × PVal)) : List (String × PVal) :=
  l.foldr sortKeysInsert []

/-- Is the value a `numbers.Number`? -/
def pvalIsNum : PVal → Bool
  | PVal.num _ => true
  | _ => false

/-- `str(...)` conversion applied by ` set_postfix` to non-`Number` values.
For `num` this is unreachable in the embedded code path: numeric values hit
the missing `format_num` method first (see ` set_postfix` below). -/
def pvalStr : PVal → String
  | PVal.num _ => ""
  | PVal.str s => s
  | PVal.other s => s

/-- A Python iterable argument: its elements, and whether `len(...)` is
defined on it (`sized = false` models e.g. a generator). -/
structure PyIterable (α : Type) where
  elems : List α
  sized : Bool

/-- The `APBar` instance state (fields in source order; `prefix`/`postfix`
are named `prefixText`/`postfixText`). -/
structure APBar (α : Type) where
  iter : List α
  len : Nat
  maxdigits : Nat
  step : Nat
  last : Int
  period : Int
  sensitivity : Int
  ptime : Rat
  stime : Rat
  prefixText : String
  postfixText : String
  width : Nat

/-- `APBar.__init__`.  In the source `self.iter = iter(iterable)` (which
consumes nothing) runs first, then `self.len = len(iterable)` raises
`TypeError` when the input is unsized — modelled as the
`"LengthUnavailable"` error, returned before any element is consumed.
`pt`/`st` are the two `datetime.now()` reads for `ptime`/`stime`. -/
def APBar.init (iterable : PyIterable α) (period sensitivity : Int)
    (bar_width : Nat) (pt st : Rat) : Except String (APBar α) :=
  if iterable.sized then
    Except.ok
      { iter := iterable.elems
        len := iterable.elems.length
        maxdigits := (toString iterable.elems.length).length * 2 + 3
        step := 0
        last := -1
        period := period
        sensitivity := sensitivity
        ptime := pt
        stime := st
        prefixText := ""
        postfixText := ""
        width := bar_width }
  else Except.error "LengthUnavailable"

/-- `APBar.__len__`. -/
def APBar.length (b : APBar α) : Nat := b.len

/-- One cell of the pseudographic bar, from the loop body of
`APBar.barchart`: `chr(0x2588)` when `progress >= i + 1`, `chr(0x2593)`
when `progress >= i + 0.66`, `chr(0x2592)` when `progress >= i + 0.33`,
else `chr(0x2591)`. -/
def barCell (progress : Rat) (i : Nat) : Char :=
  if (i : Rat) + 1 ≤ progress then Char.ofNat 0x2588
  else if (i : Rat) + 66/100 ≤ progress then Char.ofNat 0x2593
  else if (i : Rat) + 33/100 ≤ progress then Char.ofNat 0x2592
  else Char.ofNat 0x2591

/-- `APBar.barchart`: `progress = self.step / self.len * self.width`, then
one cell per `i in range(self.width)`, wrapped in brackets. -/
def APBar.barchart (b : APBar α) : String :=
  "[" ++
    String.mk ((List.range b.width).map
      (barCell ((b.step : Rat) / (b.len : Rat) * (b.width : Rat)))) ++
    "]"

/-- `APBar.pp`: the string written by its `print(..., end="")` call.
`nowStr` models `datetime.now().strftime("%Y.%m.%d %H:%M:%S")`. -/
def APBar.pp (b : APBar α) (percentage : Nat) (timespent estimate : Option Rat)
    (nowStr : String) : String :=
  let time_string := ppTimeString timespent estimate
  let percentage_string := pctString percentage
  let digits_string := "(" ++ toString b.step ++ "/" ++ toString b.len ++ ")"
  "\n" ++ nowStr ++ "| " ++ b.prefixText ++ b.barchart ++
    padR percentage_string 4 ++ " " ++ padR digits_string b.maxdigits ++
    time_string ++ "  " ++ b.postfixText ++ " "

/-- The method ` set_postfix` of `APBar`.  Builds the ordered dict (mapping entries first,
then keyword entries in sorted key order), then preprocesses each value by
type.  For a `Number` value the source calls `self.format_num(...)`, but no
`format_num` method is defined anywhere on `APBar` (and the class has no
base class), so that call raises `AttributeError` — modelled as the error
case, which leaves the instance unchanged since `self.postfix` is only
assigned at the end.  Other values are `str(...)`-converted, stripped, and
joined as `key=value` pairs with `", "`. -/
def set_postfix (b : APBar α) (ordered_dict : Option (List (String × PVal)))
    (kwargs : List (String × PVal)) : Except String (APBar α) :=
  let od0 : List (String × PVal) := match ordered_dict with
    | none => []
    | some l => l
  let base := od0.foldl (fun acc kv => odInsert acc kv.1 kv.2) []
  let pf := (sortByKey kwargs).foldl (fun acc kv => odInsert acc kv.1 kv.2) base
  if pf.any (fun kv => pvalIsNum kv.2) then
    Except.error "AttributeError: APBar object has no attribute format_num"
  else
    Except.ok { b with
      postfixText :=
        String.intercalate ", "
          (pf.map (fun kv => kv.1 ++ "=" ++ (pvalStr kv.2).trim)) }

/-- An output event on standard output. -/
inductive Out where
  /-- The string printed by a `self.pp(...)` call. -/
  | line (s : String)
  /-- The terse heartbeat `print(".", end="")`. -/
  | marker
  /-- The terminal `print("\n")` before `StopIteration`. -/
  | finish
deriving DecidableEq

/-- The outcome of one `__next__` call. -/
inductive StepResult (α : Type) where
  /-- `return next(self.iter)` succeeded with this element. -/
  | yield (a : α)
  /-- `StopIteration` was raised. -/
  | stop
deriving DecidableEq

/-- The printing/throttling block of `APBar.__next__` (everything between
the step increment and the termination check).  Takes the already
incremented step `step'` and the current time `ctime`; returns the new
`last`, the new `ptime`, and the outputs.  `pp` reads only `step`, `len`,
`maxdigits`, `prefix`, `postfix`, `width`, so passing the state with the
updated `step` reproduces the source's mutate-then-print order. -/
def throttle (b : APBar α) (step' : Nat) (ctime : Rat) (nowStr : String) :
    Int × Rat × List Out :=
  let delta := ctime - b.ptime
  if b.last = -1 then
    (0, b.ptime, [Out.line (APBar.pp { b with step := step' } 0 none none nowStr)])
  else if (b.period : Rat) ≤ delta ∨ step' = b.len then
    let progress : Nat := 100 * step' / b.len
    let timespent := ctime - b.stime
    let totaltime := timespent / (step' : Rat) * (b.len : Rat)
    let estimate := totaltime - timespent
    if b.last + b.sensitivity ≤ (progress : Int) then
      ((progress : Int), ctime,
        [Out.line (APBar.pp { b with step := step' } progress
          (some timespent) (some estimate) nowStr)])
    else
      (b.last, ctime, [Out.marker])
  else
    (b.last, b.ptime, [])

/-- `APBar.__next__`: increment `step`, run the throttling/printing block,
then `if self.step > self.len: print("\n"); raise StopIteration`, else
`return next(self.iter)` (an exhausted underlying iterator raises
`StopIteration` without the terminal print — the `[]` branch). -/
def nextCall (b : APBar α) (ctime : Rat) (nowStr : String) :
    StepResult α × APBar α × List Out :=
  let step' := b.step + 1
  let tr := throttle b step' ctime nowStr
  let b' : APBar α := { b with step := step', last := tr.1, ptime := tr.2.1 }
  if b.len < step' then
    (StepResult.stop, b', tr.2.2 ++ [Out.finish])
  else
    match b.iter with
    | [] => (StepResult.stop, b', tr.2.2)
    | a :: l => (StepResult.yield a, { b' with iter := l }, tr.2.2)

/-- Drive `__next__` once per entry of `ts` (each entry is the
`datetime.now()` value and its `strftime` rendering for that call),
collecting the per-call results and all output. -/
def runCalls (b : APBar α) :
    List (Rat × String) → List (StepResult α) × APBar α × List Out
  | [] => ([], b, [])
  | (t, s) :: ts =>
    let r := nextCall b t s
    let rest := runCalls r.2.1 ts
    (r.1 :: rest.1, rest.2.1, r.2.2 ++ rest.2.2)

/-- The environment probed by `tqdm`: the outcome of evaluating each of the
two experiment-tracking checks (`wandb` run active; `comet_ml` running
experiment present).  `Except.error ()` models the check raising. -/
structure Env where
  wandbActive : Except Unit Bool
  cometActive : Except Unit Bool

/-- The `or`-expression inside `tqdm`'s `try`, with Python short-circuit
evaluation: an exception in the first disjunct aborts everything, the
second disjunct is evaluated only when the first is `False`. -/
def probe (e : Env) : Except Unit Bool :=
  match e.wandbActive with
  | Except.error u => Except.error u
  | Except.ok true => Except.ok true
  | Except.ok false => e.cometActive

/-- What the `tqdm` dispatch function returns. -/
inductive Impl (α : Type) where
  /-- `APBar(iterable=iterable)` with this state. -/
  | apbar (b : APBar α)
  /-- `tqdm_original(iterable=iterable)` over these elements. -/
  | fallback (elems : List α)

/-- The module-level `tqdm` function: probe the environment inside
`try: ... except: pass`; on an active session construct an `APBar`
(still inside the `try`, so a construction failure also falls through to
the fallback); otherwise return the wrapped original iterator. -/
def tqdm (e : Env) (iterable : PyIterable α) (pt st : Rat) : Impl α :=
  match probe e with
  | Except.ok true =>
    match APBar.init iterable 10 1 10 pt st with
    | Except.ok b => Impl.apbar b
    | Except.error _ => Impl.fallback iterable.elems
  | _ => Impl.fallback iterable.elems

/-! ### Helper lemmas -/

lemma throttle_first {α} (b : APBar α) (step' : Nat) (t : Rat) (s : String)
    (h : b.last = -1) :
    throttle b step' t s =
      (0, b.ptime,
        [Out.line (APBar.pp { b with step := step' } 0 none none s)]) := by
  simp only [throttle]
  rw [if_pos h]

lemma throttle_hit {α} (b : APBar α) (step' : Nat) (t : Rat) (s : String)
    (hlast : ¬ b.last = -1)
    (hcand : (b.period : Rat) ≤ t - b.ptime ∨ step' = b.len)
    (hhit : b.last + b.sensitivity ≤ ((100 * step' / b.len : Nat) : Int)) :
    throttle b step' t s =
      (((100 * step' / b.len : Nat) : Int), t,
        [Out.line (APBar.pp { b with step := step' } (100 * step' / b.len)
          (some (t - b.stime))
          (some ((t - b.stime) / (step' : Rat) * (b.len : Rat) - (t - b.stime)))
          s)]) := by
  simp only [throttle]
  rw [if_neg hlast, if_pos hcand, if_pos hhit]

lemma throttle_miss {α} (b : APBar α) (step' : Nat) (t : Rat) (s : String)
    (hlast : ¬ b.last = -1)
    (hcand : (b.period : Rat) ≤ t - b.ptime ∨ step' = b.len)
    (hmiss : ¬ b.last + b.sensitivity ≤ ((100 * step' / b.len : Nat) : Int)) :
    throttle b step' t s = (b.last, t, [Out.marker]) := by
  simp only [throttle]
  rw [if_neg hlast, if_pos hcand, if_neg hmiss]

lemma throttle_silent {α} (b : APBar α) (step' : Nat) (t : Rat) (s : String)
    (hlast : ¬ b.last = -1)
    (hcand : ¬ ((b.period : Rat) ≤ t - b.ptime ∨ step' = b.len)) :
    throttle b step' t s = (b.last, b.ptime, []) := by
  simp only [throttle]
  rw [if_neg hlast, if_neg hcand]

lemma nextCall_step {α} (b : APBar α) (t : Rat) (s : String) :
    ((nextCall b t s).2.1).step = b.step + 1 := by
  simp only [nextCall]
  split
  · rfl
  · split <;> rfl

lemma nextCall_len {α} (b : APBar α) (t : Rat) (s : String) :
    ((nextCall b t s).2.1).len = b.len := by
  simp only [nextCall]
  split
  · rfl
  · split <;> rfl

lemma nextCall_last {α} (b : APBar α) (t : Rat) (s : String) :
    ((nextCall b t s).2.1).last = (throttle b (b.step + 1) t s).1 := by
  simp only [nextCall]
  split
  · rfl
  · split <;> rfl

lemma nextCall_ptime {α} (b : APBar α) (t : Rat) (s : String) :
    ((nextCall b t s).2.1).ptime = (throttle b (b.step + 1) t s).2.1 := by
  simp only [nextCall]
  split
  · rfl
  · split <;> rfl

lemma nextCall_out {α} (b : APBar α) (t : Rat) (s : String)
    (h : b.step + 1 ≤ b.len) :
    (nextCall b t s).2.2 = (throttle b (b.step + 1) t s).2.2 := by
  simp only [nextCall]
  rw [if_neg (Nat.not_lt.mpr h)]
  split <;> rfl

lemma nextCall_yield {α} (b : APBar α) (t : Rat) (s : String) (a : α) (l : List α)
    (h : b.step + 1 ≤ b.len) (hiter : b.iter = a :: l) :
    (nextCall b t s).1 = StepResult.yield a ∧ ((nextCall b t s).2.1).iter = l := by
  simp only [nextCall]
  rw [if_neg (Nat.not_lt.mpr h), hiter]
  exact ⟨rfl, rfl⟩

lemma nextCall_stop {α} (b : APBar α) (t : Rat) (s : String)
    (h : b.len < b.step + 1) :
    (nextCall b t s).1 = StepResult.stop := by
  simp only [nextCall]
  rw [if_pos h]

lemma runCalls_step {α} (b : APBar α) (ts : List (Rat × String)) :
    ((runCalls b ts).2.1).step = b.step + ts.length := by
  induction ts generalizing b with
  | nil => rfl
  | cons p ts ih =>
    obtain ⟨t, s⟩ := p
    simp only [runCalls]
    rw [ih, nextCall_step, List.length_cons]
    omega

lemma runCalls_len {α} (b : APBar α) (ts : List (Rat × String)) :
    ((runCalls b ts).2.1).len = b.len := by
  induction ts generalizing b with
  | nil => rfl
  | cons p ts ih =>
    obtain ⟨t, s⟩ := p
    simp only [runCalls]
    rw [ih, nextCall_len]

lemma runCalls_yields {α} (rest : List α) :
    ∀ (b : APBar α) (ts : List (Rat × String)), b.iter = rest →
      b.step + rest.length = b.len → ts.length = rest.length + 1 →
      (runCalls b ts).1 = rest.map StepResult.yield ++ [StepResult.stop] := by
  induction rest with
  | nil =>
    intro b ts hiter hstep hts
    obtain ⟨⟨t, s⟩, rfl⟩ := List.length_eq_one.mp hts
    have hlt : b.len < b.step + 1 := by
      simp only [List.length_nil, Nat.add_zero] at hstep
      omega
    simp only [runCalls, List.map_nil, List.nil_append]
    rw [nextCall_stop b t s hlt]
  | cons a l ih =>
    intro b ts hiter hstep hts
    match ts with
    | [] => simp at hts
    | (t, s) :: ts' =>
      have hts' : ts'.length = l.length + 1 := by
        simpa using hts
      have hle : b.step + 1 ≤ b.len := by
        simp only [List.length_cons] at hstep
        omega
      obtain ⟨hres, hiter'⟩ := nextCall_yield b t s a l hle hiter
      simp only [runCalls]
      rw [hres,
        ih ((nextCall b t s).2.1) ts' hiter'
          (by rw [nextCall_step, nextCall_len]
              simp only [List.length_cons] at hstep
              omega)
          hts']
      rfl

/-! ### C1 -/

/-- C1: for every sized sequence `S` of length `N ≥ 1`, fully iterating
`APBar` over `S` (making `N + 1` `__next__` calls, at arbitrary wall-clock
times) yields exactly the `N` elements of `S` in order — none skipped,
duplicated, or transformed — and then signals normal end-of-sequence
(`StopIteration`). -/
theorem c1_yields_all {α} (S : List α) (p sen : Int) (w : Nat) (pt st : Rat)
    (b : APBar α) (ts : List (Rat × String))
    (hS : S ≠ [])
    (hinit : APBar.init ⟨S, true⟩ p sen w pt st = Except.ok b)
    (hts : ts.length = S.length + 1) :
    (runCalls b ts).1 = S.map StepResult.yield ++ [StepResult.stop] := by
  simp only [APBar.init, if_pos, Except.ok.injEq] at hinit
  subst hinit
  exact runCalls_yields S _ ts rfl (by simp) hts

/-- Witness for `c1_yields_all` at `S = [7, 8]`. -/
theorem c1_yields_all_witness :
    (runCalls
      ({ iter := [7, 8], len := 2, maxdigits := 5, step := 0, last := -1,
         period := 10, sensitivity := 1, ptime := 0, stime := 0,
         prefixText := "", postfixText := "", width := 10 } : APBar Nat)
      [(0, ""), (1, ""), (2, "")]).1 =
      [StepResult.yield 7, StepResult.yield 8, StepResult.stop] :=
  c1_yields_all [7, 8] 10 1 10 0 0 _ _ (by decide) rfl rfl

/-! ### C5 -/

/-- C5 (amended): `stepCount` starts at 0, is incremented exactly once per
`next()` call (hence is monotonically non-decreasing), and after `k` calls
equals `k`; consequently `0 ≤ stepCount ≤ total + 1` holds provided the
caller makes at most `total + 1` calls, i.e. stops at the first
end-of-sequence signal.  (Further `next()` calls after end-of-sequence
keep incrementing `stepCount` past `total + 1`; see the counterexample.) -/
theorem c5_step_count :
    (∀ (S : List Nat) (p sen : Int) (w : Nat) (pt st : Rat) (b : APBar Nat),
        APBar.init ⟨S, true⟩ p sen w pt st = Except.ok b → b.step = 0) ∧
    (∀ {α : Type} (b : APBar α) (t : Rat) (s : String),
        ((nextCall b t s).2.1).step = b.step + 1) ∧
    (∀ {α : Type} (b : APBar α) (ts : List (Rat × String)),
        ((runCalls b ts).2.1).step = b.step + ts.length) ∧
    (∀ (S : List Nat) (p sen : Int) (w : Nat) (pt st : Rat) (b : APBar Nat)
        (ts : List (Rat × String)),
        APBar.init ⟨S, true⟩ p sen w pt st = Except.ok b →
        ts.length ≤ S.length + 1 →
        ((runCalls b ts).2.1).step ≤ S.length + 1) := by
  refine ⟨?_, ?_, ?_, ?_⟩
  · intro S p sen w pt st b hinit
    simp only [APBar.init, if_pos, Except.ok.injEq] at hinit
    subst hinit
    rfl
  · intro α b t s
    exact nextCall_step b t s
  · intro α b ts
    exact runCalls_step b ts
  · intro S p sen w pt st b ts hinit hlen
    simp only [APBar.init, if_pos, Except.ok.injEq] at hinit
    subst hinit
    rw [runCalls_step]
    simpa using hlen

/-- Witness for `c5_step_count` (fourth conjunct) at `S = [4, 5]` with
three calls. -/
theorem c5_step_count_witness :
    ((runCalls
      ({ iter := [4, 5], len := 2, maxdigits := 5, step := 0, last := -1,
         period := 10, sensitivity := 1, ptime := 0, stime := 0,
         prefixText := "", postfixText := "", width := 10 } : APBar Nat)
      [(0, ""), (1, ""), (2, "")]).2.1).step ≤ [4, 5].length + 1 :=
  c5_step_count.2.2.2 [4, 5] 10 1 10 0 0 _ [(0, ""), (1, ""), (2, "")] rfl
    (by decide)

/-- Counterexample for C5 as stated: on a sequence of length 1 (so
`total + 1 = 2`), a caller that makes one more `next()` call after
end-of-sequence was signalled reaches `stepCount = 3 > total + 1` —
`stepCount` is incremented unconditionally on every call, even after
`StopIteration`. -/
theorem c5_cex :
    ((runCalls
      ({ iter := [0], len := 1, maxdigits := 5, step := 0, last := -1,
         period := 10, sensitivity := 1, ptime := 0, stime := 0,
         prefixText := "", postfixText := "", width := 10 } : APBar Nat)
      [(0, ""), (1, ""), (2, "")]).2.1).step = 3 ∧
    ((runCalls
      ({ iter := [0], len := 1, maxdigits := 5, step := 0, last := -1,
         period := 10, sensitivity := 1, ptime := 0, stime := 0,
         prefixText := "", postfixText := "", width := 10 } : APBar Nat)
      [(0, ""), (1, ""), (2, "")]).2.1).len = 1 ∧
    ¬ (3 ≤ 1 + 1) := by
  refine ⟨rfl, rfl, by decide⟩

/-! ### C6 -/

/-- C6: constructing with an unsized input fails immediately with the
`LengthUnavailable` condition (independently of the elements, which are
never consumed); for sized inputs construction succeeds, captures the
length as `total` with the whole sequence still pending and
`stepCount = 0`, and `total` is never changed by a `next()` call or a
` set_postfix` call. -/
theorem c6_init :
    (∀ (S : List Nat) (p sen : Int) (w : Nat) (pt st : Rat),
        APBar.init ⟨S, false⟩ p sen w pt st =
          Except.error "LengthUnavailable") ∧
    (∀ (S : List Nat) (p sen : Int) (w : Nat) (pt st : Rat) (b : APBar Nat),
        APBar.init ⟨S, true⟩ p sen w pt st = Except.ok b →
        b.iter = S ∧ b.len = S.length ∧ b.step = 0 ∧ b.last = -1) ∧
    (∀ (b : APBar Nat) (t : Rat) (s : String),
        ((nextCall b t s).2.1).len = b.len) ∧
    (∀ (b : APBar Nat) (od : Option (List (String × PVal)))
        (kw : List (String × PVal)) (b' : APBar Nat),
        set_postfix b od kw = Except.ok b' → b'.len = b.len) := by
  refine ⟨?_, ?_, ?_, ?_⟩
  · intro S p sen w pt st
    rfl
  · intro S p sen w pt st b hinit
    simp only [APBar.init, if_pos, Except.ok.injEq] at hinit
    subst hinit
    exact ⟨rfl, rfl, rfl, rfl⟩
  · intro b t s
    exact nextCall_len b t s
  · intro b od kw b' h
    simp only [ set_postfix] at h
    split at h
    · exact absurd h (by simp)
    · rw [← (Except.ok.injEq _ _).mp h]

/-- The state produced by `APBar.init` on the sized input `[3, 4]`. -/
abbrev c6r : APBar Nat :=
  { iter := [3, 4], len := 2, maxdigits := 5, step := 0, last := -1,
    period := 10, sensitivity := 1, ptime := 0, stime := 0,
    prefixText := "", postfixText := "", width := 10 }

/-- `c6r` after a successful ` set_postfix` call with the string value
`"x"` under key `"a"`. -/
abbrev c6r2 : APBar Nat :=
  { c6r with postfixText := String.intercalate ", " ["a" ++ "=" ++ "x".trim] }

/-- Witness for `c6_init`: the sized-construction conjunct at `S = [3, 4]`
and the ` set_postfix`-preserves-`total` conjunct at `c6r`. -/
theorem c6_init_witness :
    (c6r.iter = [3, 4] ∧ c6r.len = [3, 4].length ∧ c6r.step = 0 ∧
      c6r.last = -1) ∧
    c6r2.len = c6r.len :=
  ⟨c6_init.2.1 [3, 4] 10 1 10 0 0 c6r rfl,
   c6_init.2.2.2 c6r (some [("a", PVal.str "x")]) [] c6r2 rfl⟩


lemma nextCall_state {α} (b : APBar α) (t : Rat) (s : String) :
    (nextCall b t s).2.1 =
      { b with
        step := b.step + 1,
        last := (throttle b (b.step + 1) t s).1,
        ptime := (throttle b (b.step + 1) t s).2.1,
        iter := if b.len < b.step + 1 then b.iter else b.iter.tail } := by
  simp only [nextCall]
  by_cases h : b.len < b.step + 1
  · rw [if_pos h, if_pos h]
  · rw [if_neg h, if_neg h]
    split
    · rename_i heq
      rw [heq]
      rfl
    · rename_i a l heq
      rw [heq]
      rfl

lemma barCell_full {p : Rat} {i : Nat} (h1 : (i : Rat) + 1 ≤ p) :
    barCell p i = Char.ofNat 0x2588 := by
  unfold barCell
  rw [if_pos h1]

lemma barCell_two {p : Rat} {i : Nat} (h1 : ¬ (i : Rat) + 1 ≤ p)
    (h2 : (i : Rat) + 66/100 ≤ p) : barCell p i = Char.ofNat 0x2593 := by
  unfold barCell
  rw [if_neg h1, if_pos h2]

lemma barCell_third {p : Rat} {i : Nat} (h1 : ¬ (i : Rat) + 1 ≤ p)
    (h2 : ¬ (i : Rat) + 66/100 ≤ p) (h3 : (i : Rat) + 33/100 ≤ p) :
    barCell p i = Char.ofNat 0x2592 := by
  unfold barCell
  rw [if_neg h1, if_neg h2, if_pos h3]

lemma barCell_none {p : Rat} {i : Nat} (h1 : ¬ (i : Rat) + 1 ≤ p)
    (h2 : ¬ (i : Rat) + 66/100 ≤ p) (h3 : ¬ (i : Rat) + 33/100 ≤ p) :
    barCell p i = Char.ofNat 0x2591 := by
  unfold barCell
  rw [if_neg h1, if_neg h2, if_neg h3]

/-! ### C2 -/

/-- `APBar([0,1,2], period=10, sensitivity=35, bar_width=10)` constructed
at time 0, for the C2 runs. -/
abbrev c2b0 : APBar Nat :=
  { iter := [0, 1, 2], len := 3, maxdigits := 5, step := 0, last := -1,
    period := 10, sensitivity := 35, ptime := 0, stime := 0,
    prefixText := "", postfixText := "", width := 10 }

/-- The state after the first `next()` call on `c2b0` (at time 0): the 0%
line was printed, `last = 0`. -/
abbrev c2b1 : APBar Nat :=
  { iter := [1, 2], len := 3, maxdigits := 5, step := 1, last := 0,
    period := 10, sensitivity := 35, ptime := 0, stime := 0,
    prefixText := "", postfixText := "", width := 10 }

/-- The state after the second `next()` call (at time 10): candidate
update at 66%, full line printed, `last = 66`, `ptime = 10`. -/
abbrev c2b2 : APBar Nat :=
  { iter := [2], len := 3, maxdigits := 5, step := 2, last := 66,
    period := 10, sensitivity := 35, ptime := 10, stime := 0,
    prefixText := "", postfixText := "", width := 10 }

/-- Counterexample for C2 as stated: with `total = 3` and
`sensitivityPercent = 35`, after full lines at 0% and 66% the `next()`
call with `stepCount == total` (the third call, at time 10.5) emits only
the terse marker — not a full status line — because
`100 < lastReportedPercent + sensitivityPercent = 66 + 35`.  So the final
call does *not* print a status line "regardless of the sensitivity
threshold". -/
theorem c2_cex :
    APBar.init (⟨[0, 1, 2], true⟩ : PyIterable Nat) 10 35 10 0 0 =
      Except.ok c2b0 ∧
    (nextCall c2b0 0 "").2.1 = c2b1 ∧
    (nextCall c2b1 10 "").2.1 = c2b2 ∧
    c2b2.step + 1 = 3 ∧ c2b2.len = 3 ∧ c2b2.last = 66 ∧
    (nextCall c2b2 (21/2) "").2.2 = [Out.marker] := by
  refine ⟨rfl, rfl, ?_, rfl, rfl, rfl, ?_⟩
  · rw [nextCall_state,
      throttle_hit c2b1 (c2b1.step + 1) 10 "" (by decide)
        (Or.inl (show ((10 : Int) : Rat) ≤ 10 - 0 by norm_num))
        (show (0 : Int) + 35 ≤ ((100 * 2 / 3 : Nat) : Int) by decide)]
    rfl
  · rw [nextCall_out c2b2 (21/2) "" (by decide),
      throttle_miss c2b2 (c2b2.step + 1) (21/2) "" (by decide)
        (Or.inr (by decide))
        (show ¬ (66 : Int) + 35 ≤ ((100 * 3 / 3 : Nat) : Int) by decide)]

/-- C2 (amended): the first `next()` call (sentinel `last == -1`)
unconditionally prints the 0% status line (with empty time fields) for any
configuration; the `next()` call with `stepCount == total` is always a
candidate update regardless of elapsed time, but it emits a full status
line only when `100 ≥ lastReportedPercent + sensitivityPercent`, and
otherwise emits the single terse marker. -/
theorem c2_amended :
    (∀ {α : Type} (b : APBar α) (t : Rat) (s : String),
        b.last = -1 → b.step + 1 ≤ b.len →
        (nextCall b t s).2.2 =
          [Out.line (APBar.pp { b with step := b.step + 1 } 0 none none s)] ∧
        ((nextCall b t s).2.1).last = 0) ∧
    (∀ {α : Type} (b : APBar α) (t : Rat) (s : String),
        ¬ b.last = -1 → b.step + 1 = b.len →
        ((b.last + b.sensitivity ≤ 100 →
            ∃ line, (nextCall b t s).2.2 = [Out.line line]) ∧
         (¬ b.last + b.sensitivity ≤ 100 →
            (nextCall b t s).2.2 = [Out.marker]))) := by
  constructor
  · intro α b t s hlast hle
    constructor
    · rw [nextCall_out b t s hle, throttle_first b _ t s hlast]
    · rw [nextCall_last, throttle_first b _ t s hlast]
  · intro α b t s hlast hstep
    have hlen : 0 < b.len := by omega
    have hprog : 100 * (b.step + 1) / b.len = 100 := by
      rw [hstep]
      exact Nat.mul_div_cancel _ hlen
    constructor
    · intro hhit
      have hhit' :
          b.last + b.sensitivity ≤ ((100 * (b.step + 1) / b.len : Nat) : Int) := by
        rw [hprog]
        exact_mod_cast hhit
      exact ⟨_, by
        rw [nextCall_out b t s (le_of_eq hstep),
          throttle_hit b _ t s hlast (Or.inr hstep) hhit']⟩
    · intro hmiss
      have hmiss' :
          ¬ b.last + b.sensitivity ≤ ((100 * (b.step + 1) / b.len : Nat) : Int) := by
        rw [hprog]
        intro h
        exact hmiss (by exact_mod_cast h)
      rw [nextCall_out b t s (le_of_eq hstep),
        throttle_miss b _ t s hlast (Or.inr hstep) hmiss']

/-- Witness for `c2_amended`: the first conjunct at `c2b0` (first call),
and the marker case of the second conjunct at `c2b2` (final call,
sensitivity not met). -/
theorem c2_amended_witness :
    ((nextCall c2b0 0 "").2.2 =
      [Out.line (APBar.pp { c2b0 with step := c2b0.step + 1 } 0 none none "")] ∧
     ((nextCall c2b0 0 "").2.1).last = 0) ∧
    (nextCall c2b2 (21/2) "").2.2 = [Out.marker] :=
  ⟨c2_amended.1 c2b0 0 "" rfl (by decide),
   (c2_amended.2 c2b2 (21/2) "" (by decide) (by decide)).2 (by decide)⟩

/-! ### C4 -/

/-- C4 (amended): on a candidate update (period elapsed or final step)
whose percent is below `lastReportedPercent + sensitivityPercent`, exactly
one terse marker character is emitted instead of a full line and
`lastReportedPercent` is left unchanged — but the print-time anchor
`lastPrintTime` is reset to the current time on *every* candidate update,
the marker-only case included (`self.ptime = ctime` runs before the
sensitivity test in the source). -/
theorem c4_marker_update {α : Type} (b : APBar α) (t : Rat) (s : String)
    (hlast : ¬ b.last = -1)
    (hstep : b.step + 1 ≤ b.len)
    (hcand : (b.period : Rat) ≤ t - b.ptime ∨ b.step + 1 = b.len)
    (hmiss : ¬ b.last + b.sensitivity ≤
      ((100 * (b.step + 1) / b.len : Nat) : Int)) :
    (nextCall b t s).2.2 = [Out.marker] ∧
    ((nextCall b t s).2.1).last = b.last ∧
    ((nextCall b t s).2.1).ptime = t := by
  have hm := throttle_miss b (b.step + 1) t s hlast hcand hmiss
  refine ⟨?_, ?_, ?_⟩
  · rw [nextCall_out b t s hstep, hm]
  · rw [nextCall_last, hm]
  · rw [nextCall_ptime, hm]

/-- `APBar(range(10), period=10, sensitivity=50)` constructed at time 0,
for the C4 runs. -/
abbrev c4b0 : APBar Nat :=
  { iter := [0, 1, 2, 3, 4, 5, 6, 7, 8, 9], len := 10, maxdigits := 7,
    step := 0, last := -1, period := 10, sensitivity := 50, ptime := 0,
    stime := 0, prefixText := "", postfixText := "", width := 10 }

/-- The state after the first `next()` call on `c4b0` (at time 0). -/
abbrev c4b1 : APBar Nat :=
  { iter := [1, 2, 3, 4, 5, 6, 7, 8, 9], len := 10, maxdigits := 7,
    step := 1, last := 0, period := 10, sensitivity := 50, ptime := 0,
    stime := 0, prefixText := "", postfixText := "", width := 10 }

/-- Witness for `c4_marker_update` at `c4b1` (`last = 0`, `ptime = 0`),
called at time 20: the period has elapsed and percent 20 is below the
sensitivity threshold 50. -/
theorem c4_marker_update_witness :
    (nextCall c4b1 20 "").2.2 = [Out.marker] ∧
    ((nextCall c4b1 20 "").2.1).last = c4b1.last ∧
    ((nextCall c4b1 20 "").2.1).ptime = 20 :=
  c4_marker_update c4b1 20 "" (by decide) (by decide)
    (Or.inl (show ((10 : Int) : Rat) ≤ 20 - 0 by norm_num)) (by decide)

/-- Counterexample for C4 as stated: in the run of
`APBar(range(10), period=10, sensitivity=50)`, the marker-only candidate
update at time 20 *changes* `lastPrintTime` from 0 to 20 (while leaving
`lastReportedPercent` at 0), contradicting "the print-time anchor is left
unchanged on a marker-only update". -/
theorem c4_cex :
    (nextCall c4b0 0 "").2.1 = c4b1 ∧
    c4b1.ptime = 0 ∧ c4b1.last = 0 ∧
    (nextCall c4b1 20 "").2.2 = [Out.marker] ∧
    ((nextCall c4b1 20 "").2.1).last = 0 ∧
    ((nextCall c4b1 20 "").2.1).ptime = 20 ∧ ¬ ((20 : Rat) = 0) := by
  have hm := throttle_miss c4b1 (c4b1.step + 1) 20 "" (by decide)
    (Or.inl (show ((10 : Int) : Rat) ≤ 20 - 0 by norm_num)) (by decide)
  refine ⟨rfl, rfl, rfl, ?_, ?_, ?_, by norm_num⟩
  · rw [nextCall_out c4b1 20 "" (by decide), hm]
  · rw [nextCall_last, hm]
  · rw [nextCall_ptime, hm]

/-! ### C3 -/

/-- C3: the claim's own example crashes instead of formatting.
` set_postfix({"loss": 0.123456})` reaches the numeric-preprocessing
branch, which calls `self.format_num(...)`; no `format_num` is defined
anywhere on `APBar` (and the class has no base class), so the call raises
`AttributeError` rather than completing and rendering `loss=0.1235`. -/
theorem c3_formatnum_missing :
    set_postfix
      ({ iter := [0], len := 1, maxdigits := 5, step := 0, last := -1,
         period := 10, sensitivity := 1, ptime := 0, stime := 0,
         prefixText := "", postfixText := "", width := 10 } : APBar Nat)
      (some [("loss", PVal.num (123456/1000000))]) [] =
      Except.error "AttributeError: APBar object has no attribute format_num" := by
  rfl

/-! ### C7 -/

/-- C7: any error while probing the environment for an active
experiment-tracking session is swallowed by the bare `except: pass` and
treated as "not active": `tqdm` returns the external fallback iterator
over the same input, and the probe never lets an exception reach the
caller.  This holds whichever of the two integration checks (`wandb`
first, `comet_ml` second, with short-circuit evaluation) raises. -/
theorem c7_probe_failopen :
    (∀ (e : Env) (it : PyIterable Nat) (pt st : Rat),
        probe e = Except.error () →
        tqdm e it pt st = Impl.fallback it.elems) ∧
    (∀ (e : Env) (it : PyIterable Nat) (pt st : Rat),
        probe e = Except.ok false →
        tqdm e it pt st = Impl.fallback it.elems) ∧
    (∀ (e : Env), e.wandbActive = Except.error () →
        probe e = Except.error ()) ∧
    (∀ (e : Env), e.wandbActive = Except.ok false →
        e.cometActive = Except.error () → probe e = Except.error ()) := by
  refine ⟨?_, ?_, ?_, ?_⟩
  · intro e it pt st h
    simp only [tqdm, h]
  · intro e it pt st h
    simp only [tqdm, h]
  · intro e h
    simp only [probe, h]
  · intro e h1 h2
    simp only [probe, h1, h2]

/-- Witness for `c7_probe_failopen`: a raising `wandb` check makes the
probe fail, and `tqdm` then returns the fallback over the same elements. -/
theorem c7_probe_failopen_witness :
    tqdm (⟨Except.error (), Except.ok true⟩ : Env)
      (⟨[1, 2], true⟩ : PyIterable Nat) 0 0 = Impl.fallback [1, 2] :=
  c7_probe_failopen.1 ⟨Except.error (), Except.ok true⟩ ⟨[1, 2], true⟩ 0 0 rfl

/-! ### C10 -/

/-- C10: when the probe reports an active session but the input is
unsized, the `APBar` construction inside the `try` fails with
`LengthUnavailable`, the bare `except` swallows it, and `tqdm` returns the
external fallback iterator over the same input — the failure is never
surfaced to the caller of the dispatch path. -/
theorem c10_construct_swallow (e : Env) (S : List Nat) (pt st : Rat)
    (hp : probe e = Except.ok true) :
    APBar.init (⟨S, false⟩ : PyIterable Nat) 10 1 10 pt st =
      Except.error "LengthUnavailable" ∧
    tqdm e (⟨S, false⟩ : PyIterable Nat) pt st = Impl.fallback S := by
  constructor
  · rfl
  · simp only [tqdm, hp]
    rfl

/-- Witness for `c10_construct_swallow` with an active `wandb` session and
the unsized input `⟨[5], false⟩`. -/
theorem c10_construct_swallow_witness :
    APBar.init (⟨[5], false⟩ : PyIterable Nat) 10 1 10 0 0 =
      Except.error "LengthUnavailable" ∧
    tqdm (⟨Except.ok true, Except.ok false⟩ : Env)
      (⟨[5], false⟩ : PyIterable Nat) 0 0 = Impl.fallback [5] :=
  c10_construct_swallow ⟨Except.ok true, Except.ok false⟩ [5] 0 0 rfl

/-! ### C8 -/

/-- C8: the estimated-remaining field of a printed status line is never a
negative duration.  Whenever the computed `estimatedRemaining` is
negative, the displayed value is the hard-coded `"00:00:00"`; otherwise it
is the rendering of the non-negative duration itself.  In the assembled
`time_string` the clamped field appears verbatim (its 8-character width
makes the padding a no-op). -/
theorem c8_estimate_clamp :
    (∀ est : Rat, est < 0 → esString est = "00:00:00") ∧
    (∀ est : Rat,
        esString est = "00:00:00" ∨ (0 ≤ est ∧ esString est = fmtTD est)) ∧
    (∀ ts est : Rat, est < 0 →
        ppTimeString (some ts) (some est) =
          padL (fmtTD ts) 8 ++ String.singleton (Char.ofNat 0x25BA) ++
            padL "00:00:00" 8) ∧
    padL "00:00:00" 8 = "00:00:00" := by
  refine ⟨?_, ?_, ?_, rfl⟩
  · intro est h
    simp only [esString, if_pos h]
  · intro est
    by_cases h : est < 0
    · exact Or.inl (by simp only [esString, if_pos h])
    · exact Or.inr ⟨not_lt.mp h, by simp only [esString, if_neg h]⟩
  · intro ts est h
    simp only [ppTimeString, esString, if_pos h]

/-- Witness for `c8_estimate_clamp` at `estimate = -1`. -/
theorem c8_estimate_clamp_witness :
    esString (-1) = "00:00:00" ∧
    ppTimeString (some 5) (some (-1)) =
      padL (fmtTD 5) 8 ++ String.singleton (Char.ofNat 0x25BA) ++
        padL "00:00:00" 8 :=
  ⟨c8_estimate_clamp.1 (-1) (by norm_num),
   c8_estimate_clamp.2.2.1 5 (-1) (by norm_num)⟩

/-! ### C9 -/

/-- C9: the pseudographic bar is a fixed-width rendering — a string of
exactly `barWidth` cells (plus the two bracket delimiters), each cell one
of the four shading characters chosen by comparing the bar-scaled progress
against the per-cell thresholds `i + 0.33`, `i + 0.66`, `i + 1`; in
particular at `stepCount/total = 0.5` with `barWidth = 10` the bar is
exactly 5 full cells followed by 5 empty cells, with no partial cell. -/
theorem c9_barchart :
    (∀ {α : Type} (b : APBar α), (b.barchart).length = b.width + 2) ∧
    (∀ (p : Rat) (i : Nat),
        barCell p i = Char.ofNat 0x2588 ∨ barCell p i = Char.ofNat 0x2593 ∨
        barCell p i = Char.ofNat 0x2592 ∨ barCell p i = Char.ofNat 0x2591) ∧
    (∀ (p : Rat) (i : Nat),
        (barCell p i = Char.ofNat 0x2588 ↔ (i : Rat) + 1 ≤ p) ∧
        (barCell p i = Char.ofNat 0x2593 ↔
          ((i : Rat) + 66/100 ≤ p ∧ p < (i : Rat) + 1)) ∧
        (barCell p i = Char.ofNat 0x2592 ↔
          ((i : Rat) + 33/100 ≤ p ∧ p < (i : Rat) + 66/100)) ∧
        (barCell p i = Char.ofNat 0x2591 ↔ p < (i : Rat) + 33/100)) ∧
    (∀ (b : APBar Nat), 2 * b.step = b.len → b.step ≠ 0 → b.width = 10 →
        b.barchart = "[█████░░░░░]") := by
  refine ⟨?_, ?_, ?_, ?_⟩
  · intro α b
    simp only [APBar.barchart]
    rw [String.length_append, String.length_append]
    simp [String.length, List.length_map, List.length_range]
    omega
  · intro p i
    unfold barCell
    split_ifs with h1 h2 h3
    · exact Or.inl rfl
    · exact Or.inr (Or.inl rfl)
    · exact Or.inr (Or.inr (Or.inl rfl))
    · exact Or.inr (Or.inr (Or.inr rfl))
  · intro p i
    unfold barCell
    split_ifs with h1 h2 h3
    · exact ⟨⟨fun _ => h1, fun _ => rfl⟩,
        ⟨fun h => absurd h (by decide), fun hc => absurd hc.2 (not_lt.mpr h1)⟩,
        ⟨fun h => absurd h (by decide),
         fun hc => absurd hc.2 (not_lt.mpr (le_trans (by linarith) h1))⟩,
        ⟨fun h => absurd h (by decide),
         fun hc => absurd hc (not_lt.mpr (le_trans (by linarith) h1))⟩⟩
    · exact ⟨⟨fun h => absurd h (by decide), fun hge => absurd hge h1⟩,
        ⟨fun _ => ⟨h2, not_le.mp h1⟩, fun _ => rfl⟩,
        ⟨fun h => absurd h (by decide), fun hc => absurd hc.2 (not_lt.mpr h2)⟩,
        ⟨fun h => absurd h (by decide),
         fun hc => absurd hc (not_lt.mpr (le_trans (by linarith) h2))⟩⟩
    · exact ⟨⟨fun h => absurd h (by decide), fun hge => absurd hge h1⟩,
        ⟨fun h => absurd h (by decide), fun hc => absurd hc.1 h2⟩,
        ⟨fun _ => ⟨h3, not_le.mp h2⟩, fun _ => rfl⟩,
        ⟨fun h => absurd h (by decide), fun hc => absurd hc (not_lt.mpr h3)⟩⟩
    · exact ⟨⟨fun h => absurd h (by decide), fun hge => absurd hge h1⟩,
        ⟨fun h => absurd h (by decide), fun hc => absurd hc.1 h2⟩,
        ⟨fun h => absurd h (by decide), fun hc => absurd hc.1 h3⟩,
        ⟨fun _ => not_le.mp h3, fun _ => rfl⟩⟩
  · intro b h2 hne hw
    have hs : ((b.step : Nat) : Rat) ≠ 0 := Nat.cast_ne_zero.mpr hne
    have h5 : (b.step : Rat) / (b.len : Rat) * ((10 : Nat) : Rat) = 5 := by
      rw [← h2]
      push_cast
      field_simp
      ring
    simp only [APBar.barchart, hw]
    rw [h5]
    rw [show List.range 10 = [0, 1, 2, 3, 4, 5, 6, 7, 8, 9] from rfl]
    simp only [List.map_cons, List.map_nil]
    rw [barCell_full (show ((0 : Nat) : Rat) + 1 ≤ 5 by norm_num),
      barCell_full (show ((1 : Nat) : Rat) + 1 ≤ 5 by norm_num),
      barCell_full (show ((2 : Nat) : Rat) + 1 ≤ 5 by norm_num),
      barCell_full (show ((3 : Nat) : Rat) + 1 ≤ 5 by norm_num),
      barCell_full (show ((4 : Nat) : Rat) + 1 ≤ 5 by norm_num),
      barCell_none (show ¬ ((5 : Nat) : Rat) + 1 ≤ 5 by norm_num)
        (show ¬ ((5 : Nat) : Rat) + 66/100 ≤ 5 by norm_num)
        (show ¬ ((5 : Nat) : Rat) + 33/100 ≤ 5 by norm_num),
      barCell_none (show ¬ ((6 : Nat) : Rat) + 1 ≤ 5 by norm_num)
        (show ¬ ((6 : Nat) : Rat) + 66/100 ≤ 5 by norm_num)
        (show ¬ ((6 : Nat) : Rat) + 33/100 ≤ 5 by norm_num),
      barCell_none (show ¬ ((7 : Nat) : Rat) + 1 ≤ 5 by norm_num)
        (show ¬ ((7 : Nat) : Rat) + 66/100 ≤ 5 by norm_num)
        (show ¬ ((7 : Nat) : Rat) + 33/100 ≤ 5 by norm_num),
      barCell_none (show ¬ ((8 : Nat) : Rat) + 1 ≤ 5 by norm_num)
        (show ¬ ((8 : Nat) : Rat) + 66/100 ≤ 5 by norm_num)
        (show ¬ ((8 : Nat) : Rat) + 33/100 ≤ 5 by norm_num),
      barCell_none (show ¬ ((9 : Nat) : Rat) + 1 ≤ 5 by norm_num)
        (show ¬ ((9 : Nat) : Rat) + 66/100 ≤ 5 by norm_num)
        (show ¬ ((9 : Nat) : Rat) + 33/100 ≤ 5 by norm_num)]
    rfl

/-- Witness for `c9_barchart` (last conjunct) at a state with
`stepCount = 5`, `total = 10`, `barWidth = 10`. -/
theorem c9_barchart_witness :
    ({ iter := [], len := 10, maxdigits := 7, step := 5, last := 0,
       period := 10, sensitivity := 1, ptime := 0, stime := 0,
       prefixText := "", postfixText := "", width := 10 } :
        APBar Nat).barchart = "[█████░░░░░]" :=
  c9_barchart.2.2.2
    { iter := [], len := 10, maxdigits := 7, step := 5, last := 0,
      period := 10, sensitivity := 1, ptime := 0, stime := 0,
      prefixText := "", postfixText := "", width := 10 }
    (by decide) (by decide) rfl
